import Mathlib

/-!
Shallow embedding of the virtual-machine control core of the illusion-rs
hypervisor: the EPT function-hooking engine (hook_manager.rs), the MSR
VM-exit handler (msr.rs) and the VM lifecycle control block (vm.rs).
Machine integers are modelled as Nat with explicit reductions modulo
powers of two where the Rust code truncates. Collaborator components that
are not part of the sampled sources (memory manager, inline detour,
EPT primitive operations, hardware MSR access, decoders) are modelled
from the specification and marked as such in their doc comments.
-/

namespace Illusion

/-- Size in bytes of a base (4 KB) page, x86 BASE_PAGE_SIZE. -/
def BASE_PAGE_SIZE : Nat := 4096

/-- Size in bytes of a large (2 MB) page, x86 LARGE_PAGE_SIZE. -/
def LARGE_PAGE_SIZE : Nat := 2097152

/-- The maximum number of hooks supported by the hypervisor (hook_manager.rs). -/
def MAX_HOOKS : Nat := 64

/-- MSR identifier of IA32_LSTAR, the syscall entry point register. -/
def IA32_LSTAR : Nat := 0xC0000082

/-- MSR identifier of IA32_GS_BASE. -/
def IA32_GS_BASE : Nat := 0xC0000101

/-- MSR identifier of IA32_FEATURE_CONTROL. -/
def IA32_FEATURE_CONTROL : Nat := 0x3A

/-- Mask for the low 32 bits of an MSR value (msr.rs, MSR_MASK_LOW). -/
def MSR_MASK_LOW : Nat := 0xFFFFFFFF

/-- Typed errors of the hypervisor core (error.rs is outside the sampled
sources; the constructors named here are the ones the sampled code
produces, plus explicit markers for the two panicking paths). -/
inductive HypervisorError where
  | CapacityExceeded
  | Unimplemented
  | UnwrapPanic
  | CPUUnsupported
  | VmInstructionError
  | UnknownVMInstructionError
  | VMFailToLaunch
  | UnknownVMExitReason
  deriving DecidableEq

/-- EPT access permission values used by the sampled code (ept.rs is out of
the sampled sources; only the two values the hook path mentions are
modelled). -/
inductive AccessType where
  | READ_WRITE
  | READ_WRITE_EXECUTE
  deriving DecidableEq

/-- Trampoline style selector of the inline detour. Modelled from the spec:
the hook kind is a function redirect with a specified trampoline style; the
concrete styles live in inline.rs, outside the sampled sources. -/
inductive InlineHookType where
  | Jmp
  | Breakpoint
  deriving DecidableEq

/-- Enum representing different types of hooks that can be applied
(hook_manager.rs, EptHookType). -/
inductive EptHookType where
  | Function (inline_hook_type : InlineHookType)
  | Page
  deriving DecidableEq

/-- MSR access type, read or write (bitmap.rs is outside the sampled
sources; the two variants are the ones msr.rs matches on). -/
inductive MsrAccessType where
  | Read
  | Write
  deriving DecidableEq

/-- Disposition returned by a VM-exit handler (vmexit/mod.rs is outside the
sampled sources; IncrementRIP advances past the trapping instruction,
Continue resumes without advancing). -/
inductive ExitType where
  | IncrementRIP
  | Continue
  deriving DecidableEq

/-- Guest general purpose and shadow register state (capture.rs is outside
the sampled sources; the fields modelled are exactly the ones the sampled
code reads or writes). -/
structure GuestRegisters where
  rax : Nat
  rcx : Nat
  rdx : Nat
  rip : Nat
  rsp : Nat
  rflags : Nat
  original_lstar : Nat
  hook_lstar : Nat
  deriving DecidableEq

/-- Modelled from the spec: the Memory Manager is a fixed-size table,
capacity equal to the max hook count, mapping a guest physical page address
to an owned page-table page and an owned shadow page, both created lazily
and idempotently from pre-allocated pools; a request beyond the fixed limit
fails with a capacity error. The pools are modelled as functions from slot
number to the host physical address of the pre-allocated page. -/
structure MemoryManager where
  max_hooks : Nat
  pt_slots : Nat → Nat
  shadow_slots : Nat → Nat
  pt_map : List (Nat × Nat)
  shadow_map : List (Nat × Nat)

/-- Modelled from the spec: is_page_split(pa) queries whether a page-table
page has been created for the guest page. -/
def MemoryManager.is_page_split (mm : MemoryManager) (guest_page_pa : Nat) : Bool :=
  (mm.pt_map.lookup guest_page_pa).isSome

/-- Modelled from the spec: is_page_copied(pa) queries whether a shadow
page has been created for the guest page. -/
def MemoryManager.is_page_copied (mm : MemoryManager) (guest_page_pa : Nat) : Bool :=
  (mm.shadow_map.lookup guest_page_pa).isSome

/-- Modelled from the spec: get_or_create_page_table(pa, hook_index)
returns the existing page-table page for the guest page, or lazily takes
the next pre-allocated one; beyond the fixed capacity it fails with a
capacity error. -/
def MemoryManager.get_or_create_page_table (mm : MemoryManager) (guest_page_pa : Nat)
    (_hook_index : Nat) : Except HypervisorError (Nat × MemoryManager) :=
  match mm.pt_map.lookup guest_page_pa with
  | some pt => .ok (pt, mm)
  | none =>
    if mm.pt_map.length < mm.max_hooks then
      let pt := mm.pt_slots mm.pt_map.length
      .ok (pt, { mm with pt_map := (guest_page_pa, pt) :: mm.pt_map })
    else
      .error .CapacityExceeded

/-- Modelled from the spec: get_or_create_shadow_page(pa, hook_index)
returns the existing shadow page for the guest page, or lazily takes the
next pre-allocated one; beyond the fixed capacity it fails with a capacity
error. -/
def MemoryManager.get_or_create_shadow_page (mm : MemoryManager) (guest_page_pa : Nat)
    (_hook_index : Nat) : Except HypervisorError (Nat × MemoryManager) :=
  match mm.shadow_map.lookup guest_page_pa with
  | some sh => .ok (sh, mm)
  | none =>
    if mm.shadow_map.length < mm.max_hooks then
      let sh := mm.shadow_slots mm.shadow_map.length
      .ok (sh, { mm with shadow_map := (guest_page_pa, sh) :: mm.shadow_map })
    else
      .error .CapacityExceeded

/-- Modelled from the spec: get_page_table(pa) returns the page-table page
for the guest page, if one exists. -/
def MemoryManager.get_page_table (mm : MemoryManager) (guest_page_pa : Nat) : Option Nat :=
  mm.pt_map.lookup guest_page_pa

/-- Modelled from the spec: get_shadow_page(pa) returns the shadow page for
the guest page, if one exists. -/
def MemoryManager.get_shadow_page (mm : MemoryManager) (guest_page_pa : Nat) : Option Nat :=
  mm.shadow_map.lookup guest_page_pa

/-- Modelled from the spec: the EPT structure is a guest-physical to
host-physical translation with per-page access control, identity mapped at
init; it records which 2 MB leaves have been split into 4 KB tables and
which 4 KB pages have had their permissions modified from the identity
default of read-write-execute. -/
structure Ept where
  split_large_pages : List Nat
  permissions : List (Nat × AccessType)

/-- Modelled from the spec: a freshly identity-mapped EPT, no splits, all
pages at the default read-write-execute permission. -/
def Ept.identity_init : Ept :=
  { split_large_pages := [], permissions := [] }

/-- Modelled from the spec: split_2mb_to_4kb replaces the 2 MB leaf for the
given large page with the supplied 4 KB page table, enabling per-4 KB
permission control. -/
def Ept.split_2mb_to_4kb (ept : Ept) (guest_large_page_pa : Nat) : Ept :=
  if ept.split_large_pages.contains guest_large_page_pa then ept
  else { ept with split_large_pages := guest_large_page_pa :: ept.split_large_pages }

/-- Modelled from the spec: modify_page_permissions sets the access control
bits of the 4 KB page. -/
def Ept.modify_page_permissions (ept : Ept) (guest_page_pa : Nat) (access : AccessType) : Ept :=
  { ept with permissions := (guest_page_pa, access) :: ept.permissions }

/-- Current access permission of a 4 KB guest page in the EPT; pages never
touched keep the identity-map default of read-write-execute. -/
def Ept.get_permission (ept : Ept) (guest_page_pa : Nat) : AccessType :=
  (ept.permissions.lookup guest_page_pa).getD .READ_WRITE_EXECUTE

/-- Hook manager state (hook_manager.rs, HookManager). The kernel hook is
modelled by the recorded base value; the MSR interception bitmap is
modelled by the single bit the sampled code toggles, interception of
IA32_LSTAR writes. -/
structure HookManager where
  memory_manager : MemoryManager
  current_hook_index : Nat
  kernel_base : Option Nat
  has_cpuid_cache_info_been_called : Bool
  msr_bitmap_lstar_write : Bool
  old_rflags : Option Nat
  mtf_counter : Option Nat

/-- VM control block (vm.rs, Vm). The hardware-defined VMXON and VMCS
regions, host paging and cached CPU feature data are out of the modelled
state; the hook manager is reachable from the machine as in
hook_manager.rs. -/
structure Vm where
  primary_ept : Ept
  guest_registers : GuestRegisters
  has_launched : Bool
  hook_manager : HookManager
  old_rflags : Option Nat
  mtf_counter : Option Nat

/-- The machine as seen by the hypervisor: the per-core VM control block
together with the hardware effects the sampled code performs, namely the
flat physical byte memory, the live hardware MSR file, the pending
guest fault injection, and the global TLB invalidation markers. -/
structure Machine where
  vm : Vm
  mem : Nat → Nat
  hwMsr : Nat → Nat
  injected_gp : Bool
  invept_all_contexts_done : Bool
  invvpid_all_contexts_done : Bool

/-- Replaces the memory manager of the machine. -/
def Machine.with_memory_manager (m : Machine) (mm : MemoryManager) : Machine :=
  { m with vm := { m.vm with hook_manager := { m.vm.hook_manager with memory_manager := mm } } }

/-- Replaces the primary EPT of the machine. -/
def Machine.with_primary_ept (m : Machine) (ept : Ept) : Machine :=
  { m with vm := { m.vm with primary_ept := ept } }

/-- Replaces the physical memory of the machine. -/
def Machine.with_mem (m : Machine) (mem : Nat → Nat) : Machine :=
  { m with mem := mem }

/-- Replaces the current hook index of the machine. -/
def Machine.with_hook_index (m : Machine) (i : Nat) : Machine :=
  { m with vm := { m.vm with hook_manager := { m.vm.hook_manager with current_hook_index := i } } }

/-- Aligns a physical address down to its 4 KB page boundary
(PAddr.align_down_to_base_page). -/
def align_down_to_base_page (pa : Nat) : Nat :=
  pa / BASE_PAGE_SIZE * BASE_PAGE_SIZE

/-- Aligns a physical address down to its 2 MB page boundary
(PAddr.align_down_to_large_page). -/
def align_down_to_large_page (pa : Nat) : Nat :=
  pa / LARGE_PAGE_SIZE * LARGE_PAGE_SIZE

/-- Marker value standing for the redirect written by the inline detour. -/
def detour_marker : Nat := 0xCC

/-- Modelled from the spec: the inline-detour primitive
(InlineHook::detour64, inline.rs, outside the sampled sources) installs a
control-transfer redirect at the given target address; the instruction
encoding is out of scope, so the redirect is modelled as a marker byte
written at exactly that address. -/
def InlineHook.detour64 (target : Nat) (mem : Nat → Nat) : Nat → Nat :=
  fun a => if a = target then detour_marker else mem a

/-- Raw full-page copy from the live guest physical page into the shadow
page (HookManager::unsafe_copy_guest_to_shadow, a copy_nonoverlapping of
BASE_PAGE_SIZE bytes). -/
def copy_guest_to_shadow (guest_page_pa host_shadow_page_pa : Nat) (mem : Nat → Nat) :
    Nat → Nat :=
  fun a =>
    if host_shadow_page_pa ≤ a ∧ a < host_shadow_page_pa + BASE_PAGE_SIZE then
      mem (guest_page_pa + (a - host_shadow_page_pa))
    else
      mem a

/-- Calculates the address of the function within the host shadow page
(HookManager::calculate_function_offset_in_host_shadow_page): the shadow
page base plus the base-page offset of the guest function physical
address. -/
def calculate_function_offset_in_host_shadow_page
    (host_shadow_page_pa guest_function_pa : Nat) : Nat :=
  host_shadow_page_pa + guest_function_pa % BASE_PAGE_SIZE

/-- Embeds HookManager::ept_hook_function (hook_manager.rs lines 98-160).
The guest-virtual to guest-physical translation
(PhysicalAddress::pa_from_va) is delegated to the collaborator function
pa_from_va. The Rust mutates the machine in place and propagates errors
with the question mark operator, so the embedding returns the machine
paired with the result; on an error the machine holds exactly the
mutations performed before the failing step. The two panicking paths
(the unwraps on line 132-133 and the unimplemented page-hook arm) are
returned as the explicit errors UnwrapPanic and Unimplemented. -/
def HookManager.ept_hook_function (pa_from_va : Nat → Nat) (m : Machine)
    (guest_function_va : Nat) (ept_hook_type : EptHookType) :
    Machine × Except HypervisorError Unit :=
  let guest_function_pa := pa_from_va guest_function_va
  let guest_page_pa := align_down_to_base_page guest_function_pa
  let guest_large_page_pa := align_down_to_large_page guest_function_pa
  -- Check and possibly split the page before fetching the shadow page
  let step_split : Machine × Except HypervisorError Unit :=
    if !(m.vm.hook_manager.memory_manager.is_page_split guest_page_pa) then
      match m.vm.hook_manager.memory_manager.get_or_create_page_table guest_page_pa
          m.vm.hook_manager.current_hook_index with
      | .error e => (m, .error e)
      | .ok (_pt, mm1) =>
        ((m.with_memory_manager mm1).with_primary_ept
          (m.vm.primary_ept.split_2mb_to_4kb guest_large_page_pa), .ok ())
    else (m, .ok ())
  match step_split with
  | (m1, .error e) => (m1, .error e)
  | (m1, .ok _) =>
    -- Check and possibly copy the page before setting up the shadow function
    let step_copy : Machine × Except HypervisorError Unit :=
      if !(m1.vm.hook_manager.memory_manager.is_page_copied guest_page_pa) then
        match m1.vm.hook_manager.memory_manager.get_or_create_shadow_page guest_page_pa
            m1.vm.hook_manager.current_hook_index with
        | .error e => (m1, .error e)
        | .ok (shadow_pa, mm2) =>
          ((m1.with_memory_manager mm2).with_mem
            (copy_guest_to_shadow guest_page_pa shadow_pa m1.mem), .ok ())
      else (m1, .ok ())
    match step_copy with
    | (m2, .error e) => (m2, .error e)
    | (m2, .ok _) =>
      -- Retrieve shadow page and page table after ensuring they are set up
      match m2.vm.hook_manager.memory_manager.get_shadow_page guest_page_pa,
          m2.vm.hook_manager.memory_manager.get_page_table guest_page_pa with
      | some shadow_page_pa, some _pt =>
        match ept_hook_type with
        | .Function _inline_hook_type =>
          let shadow_function_pa :=
            calculate_function_offset_in_host_shadow_page shadow_page_pa guest_function_pa
          let m3 := m2.with_mem (InlineHook.detour64 shadow_function_pa m2.mem)
          let m4 := m3.with_primary_ept
            (m3.vm.primary_ept.modify_page_permissions guest_page_pa AccessType.READ_WRITE)
          let m5 := { m4 with invept_all_contexts_done := true,
                              invvpid_all_contexts_done := true }
          (m5.with_hook_index (m5.vm.hook_manager.current_hook_index + 1), .ok ())
        | .Page => (m2, .error .Unimplemented)
      | _, _ => (m2, .error .UnwrapPanic)

/-- The 64-bit MSR value encoded by a guest wrmsr, from the low 32 bits of
rdx and rax (msr.rs line 58, with the u64 left shift reduced modulo 2^64). -/
def guest_msr_value (r : GuestRegisters) : Nat :=
  ((r.rdx <<< 32) % 2 ^ 64) ||| (r.rax &&& MSR_MASK_LOW)

/-- Valid architectural MSR range 0x0 to 0x1FFF (msr.rs,
MSR_VALID_RANGE_LOW, as an inclusive range over the u32 identifier). -/
def msr_valid_range_low (msr_id : Nat) : Prop :=
  msr_id ≤ 0x1FFF

/-- Valid extended MSR range 0xC0000000 to 0xC0001FFF (msr.rs,
MSR_VALID_RANGE_HIGH). -/
def msr_valid_range_high (msr_id : Nat) : Prop :=
  0xC0000000 ≤ msr_id ∧ msr_id ≤ 0xC0001FFF

/-- Reserved synthetic Hyper-V MSR range 0x40000000 to 0x400000FF (msr.rs,
MSR_HYPERV_RANGE). -/
def msr_hyperv_range (msr_id : Nat) : Prop :=
  0x40000000 ≤ msr_id ∧ msr_id ≤ 0x400000FF

instance (msr_id : Nat) : Decidable (msr_valid_range_low msr_id) := by
  unfold msr_valid_range_low; infer_instance

instance (msr_id : Nat) : Decidable (msr_valid_range_high msr_id) := by
  unfold msr_valid_range_high; infer_instance

instance (msr_id : Nat) : Decidable (msr_hyperv_range msr_id) := by
  unfold msr_hyperv_range; infer_instance

/-- Fault-injection condition of the vmware feature build (msr.rs lines
70-76): not in the low valid range, not in the high valid range, and in
the Hyper-V range. -/
def msr_invalid_vmware (msr_id : Nat) : Prop :=
  ¬ msr_valid_range_low msr_id ∧ ¬ msr_valid_range_high msr_id ∧ msr_hyperv_range msr_id

/-- Fault-injection condition of the default build (msr.rs lines 78-84):
outside both valid ranges, or inside the Hyper-V range. -/
def msr_invalid_default (msr_id : Nat) : Prop :=
  ¬ (msr_valid_range_low msr_id ∨ msr_valid_range_high msr_id) ∨ msr_hyperv_range msr_id

instance (msr_id : Nat) : Decidable (msr_invalid_vmware msr_id) := by
  unfold msr_invalid_vmware; infer_instance

instance (msr_id : Nat) : Decidable (msr_invalid_default msr_id) := by
  unfold msr_invalid_default; infer_instance

/-- Sets bit i of a value (BitField set_bit with true). -/
def set_bit (v i : Nat) : Nat := v ||| 2 ^ i

/-- Clears bit i of a value (BitField set_bit with false). -/
def clear_bit (v i : Nat) : Nat := v - (if v.testBit i then 2 ^ i else 0)

/-- Modelled from the spec: wrmsr commits a value to the live hardware
register file (support.rs, outside the sampled sources). -/
def wrmsr (msr_id value : Nat) (hw : Nat → Nat) : Nat → Nat :=
  fun i => if i = msr_id then value else hw i

/-- Embeds handle_msr_access (msr.rs lines 47-186). The compile-time
vmware feature selection is the boolean parameter vmware; the two
conditional-compilation blocks become the two leading conditionals. The
hardware rdmsr and wrmsr act on the machine's hwMsr file;
EventInjection::vmentry_inject_gp is modelled by raising the injected_gp
marker; modify_msr_interception on (IA32_LSTAR, Write, Unhook) clears the
msr_bitmap_lstar_write bit; KernelHook::set_kernel_base_and_size is
modelled from the spec as recording the base from the written value. -/
def handle_msr_access (vmware : Bool) (m : Machine) (access_type : MsrAccessType) :
    Machine × Except HypervisorError ExitType :=
  let msr_id := m.vm.guest_registers.rcx % 2 ^ 32
  let msr_value := guest_msr_value m.vm.guest_registers
  if vmware ∧ msr_invalid_vmware msr_id then
    ({ m with injected_gp := true }, .ok .Continue)
  else if (¬ vmware) ∧ msr_invalid_default msr_id then
    ({ m with injected_gp := true }, .ok .Continue)
  else
    match access_type with
    | .Read =>
      let result_value :=
        if msr_id = IA32_LSTAR then
          -- the hypervisor returns the shadowed original value
          m.vm.guest_registers.original_lstar
        else if msr_id = IA32_FEATURE_CONTROL then
          -- lock bit forced set, VMX outside SMX forced clear
          clear_bit (set_bit (m.hwMsr msr_id) 0) 2
        else
          m.hwMsr msr_id
      ({ m with vm := { m.vm with guest_registers :=
          { m.vm.guest_registers with
            rax := result_value &&& MSR_MASK_LOW,
            rdx := result_value >>> 32 } } }, .ok .IncrementRIP)
    | .Write =>
      if msr_id = IA32_LSTAR then
        let m := { m with vm := { m.vm with hook_manager :=
          { m.vm.hook_manager with
            msr_bitmap_lstar_write := false,
            kernel_base := some msr_value } } }
        let m :=
          if m.vm.guest_registers.original_lstar = 0 then
            { m with vm := { m.vm with guest_registers :=
              { m.vm.guest_registers with
                original_lstar := msr_value,
                hook_lstar := msr_value } } }
          else m
        if msr_value = m.vm.guest_registers.original_lstar then
          let value_to_write :=
            if m.vm.guest_registers.hook_lstar ≠ 0 then
              m.vm.guest_registers.hook_lstar
            else
              m.vm.guest_registers.original_lstar
          ({ m with hwMsr := wrmsr msr_id value_to_write m.hwMsr }, .ok .IncrementRIP)
        else
          (m, .ok .IncrementRIP)
      else if msr_id = IA32_GS_BASE then
        ({ m with hwMsr := wrmsr msr_id msr_value m.hwMsr }, .ok .IncrementRIP)
      else
        ({ m with hwMsr := wrmsr msr_id msr_value m.hwMsr }, .ok .IncrementRIP)

/-- Modelled from the spec: decoder of VM instruction error numbers
(VmInstructionError::from_u32, vmerror.rs, outside the sampled sources);
the known error numbers of the hardware table decode, unknown codes yield
none. -/
def VmInstructionError.from_u32 (n : Nat) : Option Nat :=
  if 1 ≤ n ∧ n ≤ 28 then some n else none

/-- Modelled from the spec: decoder of basic VM-exit reasons
(VmxBasicExitReason::from_u32, vmerror.rs, outside the sampled sources);
the codes of the hardware basic-exit-reason table decode, unknown codes
yield none. -/
def VmxBasicExitReason.from_u32 (n : Nat) : Option Nat :=
  if n ≤ 68 then some n else none

/-- Bit position of the zero flag in RFLAGS. -/
def FLAGS_ZF : Nat := 6

/-- Bit position of the carry flag in RFLAGS. -/
def FLAGS_CF : Nat := 0

/-- Embeds Vm::vm_succeed (vm.rs lines 307-326). The VM instruction error
code that the zero-flag branch reads from the VMCS is the oracle
parameter instruction_error. -/
def vm_succeed (instruction_error : Nat) (flags : Nat) : Except HypervisorError Unit :=
  if flags.testBit FLAGS_ZF then
    match VmInstructionError.from_u32 (instruction_error % 2 ^ 32) with
    | some _ => .error .VmInstructionError
    | none => .error .UnknownVMInstructionError
  else if flags.testBit FLAGS_CF then
    .error .VMFailToLaunch
  else
    .ok ()

/-- Oracle for one hardware guest-execution slice: the register state the
launch_vm assembly leaves in the guest register area, the RFLAGS value it
returns, and the VMCS fields the code reads after the exit. -/
structure HwRun where
  regs_after_exit : GuestRegisters
  flags : Nat
  vmcs_rip : Nat
  vmcs_rsp : Nat
  vmcs_rflags : Nat
  exit_reason : Nat
  instruction_error : Nat

/-- Embeds Vm::run (vm.rs lines 272-293). launch_vm enters the guest with
the current register snapshot and hands back control only on a VM-exit;
its effect is the oracle hw. The launch-state flag flips to launched right
after the post-entry verification succeeds; the register snapshot is then
refreshed from the VMCS and the exit reason decoded, an unknown code being
a fatal error. The Rust mutates the control block in place, so the
embedding returns the control block paired with the result. -/
def Vm.run (hw : HwRun) (vm : Vm) : Vm × Except HypervisorError Nat :=
  let vm := { vm with guest_registers := hw.regs_after_exit }
  match vm_succeed hw.instruction_error hw.flags with
  | .error e => (vm, .error e)
  | .ok _ =>
    let vm := { vm with has_launched := true }
    let vm := { vm with guest_registers :=
      { vm.guest_registers with
        rip := hw.vmcs_rip, rsp := hw.vmcs_rsp, rflags := hw.vmcs_rflags } }
    match VmxBasicExitReason.from_u32 (hw.exit_reason % 2 ^ 32) with
    | none => (vm, .error .UnknownVMExitReason)
    | some r => (vm, .ok r)

/-- Embeds Vm::init (vm.rs lines 112-154) on the modelled fields: the
primary EPT is rebuilt identity mapped, the guest register snapshot is
stored, the launch state is cleared, the single-step bookkeeping is
cleared, and finally the CPU feature identification is read; when feature
identification is unavailable init fails with CPUUnsupported after the
earlier assignments have already happened, as in the source. -/
def Vm.init (feature_info_available : Bool) (guest_registers : GuestRegisters) (vm : Vm) :
    Vm × Except HypervisorError Unit :=
  let vm := { vm with primary_ept := Ept.identity_init }
  let vm := { vm with guest_registers := guest_registers }
  let vm := { vm with has_launched := false }
  let vm := { vm with old_rflags := none, mtf_counter := none }
  if feature_info_available then (vm, .ok ()) else (vm, .error .CPUUnsupported)

/-- Two 4 KB page frames do not overlap. -/
def page_disjoint (a b : Nat) : Prop :=
  a + BASE_PAGE_SIZE ≤ b ∨ b + BASE_PAGE_SIZE ≤ a

instance (a b : Nat) : Decidable (page_disjoint a b) := by
  unfold page_disjoint; infer_instance

/-- Concrete guest register file for witnesses: everything zeroed. -/
def regs0 : GuestRegisters :=
  { rax := 0, rcx := 0, rdx := 0, rip := 0, rsp := 0, rflags := 0,
    original_lstar := 0, hook_lstar := 0 }

/-- Concrete memory manager for witnesses: empty maps, page-table pool at
16 MB and shadow pool at 32 MB, one page per slot. -/
def mm0 : MemoryManager :=
  { max_hooks := MAX_HOOKS,
    pt_slots := fun i => 0x1000000 + BASE_PAGE_SIZE * i,
    shadow_slots := fun i => 0x2000000 + BASE_PAGE_SIZE * i,
    pt_map := [], shadow_map := [] }

/-- Concrete hook manager for witnesses: fresh state over mm0. -/
def hm0 : HookManager :=
  { memory_manager := mm0, current_hook_index := 0, kernel_base := none,
    has_cpuid_cache_info_been_called := false, msr_bitmap_lstar_write := true,
    old_rflags := none, mtf_counter := none }

/-- Concrete VM control block for witnesses: fresh state. -/
def vm0 : Vm :=
  { primary_ept := Ept.identity_init, guest_registers := regs0,
    has_launched := false, hook_manager := hm0,
    old_rflags := none, mtf_counter := none }

/-- Concrete machine for witnesses: fresh VM over zeroed memory and MSRs. -/
def m0 : Machine :=
  { vm := vm0, mem := fun _ => 0, hwMsr := fun _ => 0, injected_gp := false,
    invept_all_contexts_done := false, invvpid_all_contexts_done := false }

/-- Iterates the hook installation n times at the same guest virtual
address, under the identity guest-virtual to guest-physical translation,
keeping the machine produced by each call. -/
def install_iter : Nat → Machine → Machine
  | 0, m => m
  | n + 1, m =>
    install_iter n (HookManager.ept_hook_function (fun va => va) m 0x403123
      (EptHookType.Function InlineHookType.Jmp)).1

/-- Concrete machine whose guest requests the reserved synthetic MSR
0x40000000 (the first Hyper-V range identifier). -/
def m_hyperv : Machine :=
  { m0 with vm := { vm0 with guest_registers := { regs0 with rcx := 0x40000000 } } }

/-- C7: a VM control block whose init has completed and that has never
been entered has launch-state false; after the first successful run the
launch-state flag is true and remains true across all subsequent run
invocations. -/
theorem C7_launch_state_flag (fia : Bool) (regs : GuestRegisters) (v v1 v2 : Vm)
    (hw hw2 : HwRun)
    (hsucc : vm_succeed hw.instruction_error hw.flags = .ok ())
    (hv2 : v2.has_launched = true) :
    (Vm.init fia regs v).1.has_launched = false
    ∧ (Vm.run hw v1).1.has_launched = true
    ∧ (Vm.run hw2 v2).1.has_launched = true := by
  refine ⟨?_, ?_, ?_⟩
  · unfold Vm.init
    cases fia <;> simp
  · unfold Vm.run
    rw [hsucc]
    cases hr : VmxBasicExitReason.from_u32 (hw.exit_reason % 2 ^ 32) <;> simp [hr]
  · unfold Vm.run
    cases he : vm_succeed hw2.instruction_error hw2.flags with
    | error e => simpa using hv2
    | ok u =>
      cases hr : VmxBasicExitReason.from_u32 (hw2.exit_reason % 2 ^ 32) <;> simp [hr]

/-- Concrete hardware run for witnesses: clean flags, exit reason 1. -/
def hw0 : HwRun :=
  { regs_after_exit := regs0, flags := 0, vmcs_rip := 0, vmcs_rsp := 0,
    vmcs_rflags := 0, exit_reason := 1, instruction_error := 0 }

/-- Concrete already-launched VM control block for witnesses. -/
def vm0_launched : Vm := { vm0 with has_launched := true }

/-- Witness for C7 at a concrete successful entry: zero flags make
vm_succeed succeed, and the launch flag behaves as stated. -/
theorem C7_launch_state_flag_witness :
    (Vm.init true regs0 vm0).1.has_launched = false
    ∧ (Vm.run hw0 vm0).1.has_launched = true
    ∧ (Vm.run hw0 vm0_launched).1.has_launched = true :=
  C7_launch_state_flag true regs0 vm0 vm0 vm0_launched hw0 hw0 rfl rfl

/-- C8: the post-entry verification distinguishes the hardware failure
signals: zero flag set yields the decoded instruction-error result
(instruction-error when the code decodes, unknown-instruction-error
otherwise), carry flag set with zero flag clear yields a launch-failure
error distinct from both instruction-error results, and neither flag set
yields success. -/
theorem C8_vm_succeed_error_classification (instruction_error flags : Nat) :
    (flags.testBit FLAGS_ZF = true →
      vm_succeed instruction_error flags =
        .error (if (VmInstructionError.from_u32 (instruction_error % 2 ^ 32)).isSome
          then HypervisorError.VmInstructionError
          else HypervisorError.UnknownVMInstructionError))
    ∧ (flags.testBit FLAGS_ZF = false → flags.testBit FLAGS_CF = true →
        vm_succeed instruction_error flags = .error HypervisorError.VMFailToLaunch)
    ∧ (flags.testBit FLAGS_ZF = false → flags.testBit FLAGS_CF = false →
        vm_succeed instruction_error flags = .ok ())
    ∧ HypervisorError.VMFailToLaunch ≠ HypervisorError.VmInstructionError
    ∧ HypervisorError.VMFailToLaunch ≠ HypervisorError.UnknownVMInstructionError := by
  refine ⟨?_, ?_, ?_, by decide, by decide⟩
  · intro h
    unfold vm_succeed
    rw [h]
    cases hd : VmInstructionError.from_u32 (instruction_error % 2 ^ 32) <;> simp [hd]
  · intro h1 h2
    unfold vm_succeed
    rw [h1, h2]
    simp
  · intro h1 h2
    unfold vm_succeed
    rw [h1, h2]
    simp

/-- Witness for C8 at concrete flag values: carry set and zero clear at
flags 1, zero set at flags 64, neither at flags 0. -/
theorem C8_vm_succeed_error_classification_witness :
    ((1 : Nat).testBit FLAGS_ZF = true →
      vm_succeed 5 1 =
        .error (if (VmInstructionError.from_u32 (5 % 2 ^ 32)).isSome
          then HypervisorError.VmInstructionError
          else HypervisorError.UnknownVMInstructionError))
    ∧ ((1 : Nat).testBit FLAGS_ZF = false → (1 : Nat).testBit FLAGS_CF = true →
        vm_succeed 5 1 = .error HypervisorError.VMFailToLaunch)
    ∧ ((1 : Nat).testBit FLAGS_ZF = false → (1 : Nat).testBit FLAGS_CF = false →
        vm_succeed 5 1 = .ok ())
    ∧ HypervisorError.VMFailToLaunch ≠ HypervisorError.VmInstructionError
    ∧ HypervisorError.VMFailToLaunch ≠ HypervisorError.UnknownVMInstructionError :=
  C8_vm_succeed_error_classification 5 1

/-- C9 is refuted by the code: under the vmware feature a guest access to
the reserved synthetic MSR 0x40000000 still injects a general-protection
fault and returns the Continue disposition, exactly as the default build
does, although the source's own comment says the vmware build must not
inject a fault for Hyper-V range MSRs. -/
theorem C9_vmware_hyperv_range_still_faults :
    (handle_msr_access true m_hyperv MsrAccessType.Read).2 = .ok ExitType.Continue
    ∧ (handle_msr_access true m_hyperv MsrAccessType.Read).1.injected_gp = true
    ∧ (handle_msr_access true m_hyperv MsrAccessType.Write).2 = .ok ExitType.Continue
    ∧ (handle_msr_access true m_hyperv MsrAccessType.Write).1.injected_gp = true
    ∧ (handle_msr_access false m_hyperv MsrAccessType.Read).2 = .ok ExitType.Continue
    ∧ (handle_msr_access false m_hyperv MsrAccessType.Read).1.injected_gp = true :=
  ⟨rfl, rfl, rfl, rfl, rfl, rfl⟩

/-- C4: in the default build, every MSR identifier outside the
architectural ranges or inside the reserved synthetic range injects a
general-protection fault, leaves the guest registers (and the whole
machine apart from the injection marker) unchanged and yields the
Continue disposition; every identifier inside the valid ranges and
outside the reserved range yields the IncrementRIP disposition. -/
theorem C4_msr_range_check_dispositions (m : Machine) (a : MsrAccessType) :
    (msr_invalid_default (m.vm.guest_registers.rcx % 2 ^ 32) →
      handle_msr_access false m a =
        ({ m with injected_gp := true }, .ok ExitType.Continue))
    ∧ (¬ msr_invalid_default (m.vm.guest_registers.rcx % 2 ^ 32) →
      (handle_msr_access false m a).2 = .ok ExitType.IncrementRIP) := by
  constructor
  · intro h
    simp only [handle_msr_access]
    rw [if_neg (by simp), if_pos (show _ ∧ _ from ⟨by simp, h⟩)]
  · intro h
    simp only [handle_msr_access]
    rw [if_neg (by simp), if_neg (fun hc => h hc.2)]
    cases a
    · rfl
    · split_ifs <;> rfl

/-- Witness for C4: the identifier 0x2000 is outside both valid ranges
and faults; the identifier 0x10 is valid and increments RIP. -/
theorem C4_msr_range_check_dispositions_witness :
    (msr_invalid_default (m_hyperv.vm.guest_registers.rcx % 2 ^ 32) →
      handle_msr_access false m_hyperv MsrAccessType.Read =
        ({ m_hyperv with injected_gp := true }, .ok ExitType.Continue))
    ∧ (¬ msr_invalid_default (m_hyperv.vm.guest_registers.rcx % 2 ^ 32) →
      (handle_msr_access false m_hyperv MsrAccessType.Read).2 = .ok ExitType.IncrementRIP) :=
  C4_msr_range_check_dispositions m_hyperv MsrAccessType.Read

/-- Concrete machine whose guest reads IA32_LSTAR before any write was
intercepted: no original value captured (the shadow field is 0) while the
live hardware register holds 0x1234. -/
def m_lstar_uncaptured : Machine :=
  { m0 with
    vm := { vm0 with guest_registers := { regs0 with rcx := IA32_LSTAR } },
    hwMsr := fun i => if i = IA32_LSTAR then 0x1234 else 0 }

/-- Counterexample for C5: when no original value has been captured the
claim says a guest read of IA32_LSTAR returns the live hardware register
value, but the handler returns the shadow field, which is still 0, and
not the live value 0x1234. -/
theorem C5_read_uncaptured_counterexample :
    m_lstar_uncaptured.vm.guest_registers.original_lstar = 0
    ∧ m_lstar_uncaptured.hwMsr IA32_LSTAR = 0x1234
    ∧ (handle_msr_access false m_lstar_uncaptured MsrAccessType.Read).1.vm.guest_registers.rax
      = 0
    ∧ (handle_msr_access false m_lstar_uncaptured MsrAccessType.Read).1.vm.guest_registers.rax
      ≠ m_lstar_uncaptured.hwMsr IA32_LSTAR &&& MSR_MASK_LOW :=
  ⟨rfl, rfl, rfl, by decide⟩

/-- The identifier IA32_LSTAR lies inside the valid high range and
outside the reserved range, so it passes the default range check. -/
theorem lstar_not_invalid : ¬ msr_invalid_default IA32_LSTAR := by
  simp [msr_invalid_default, msr_valid_range_low, msr_valid_range_high,
    msr_hyperv_range, IA32_LSTAR]

/-- Characterization of the read path for IA32_LSTAR: the guest receives
the shadowed original_lstar field, split across rax and rdx, and the
disposition is IncrementRIP. -/
theorem handle_lstar_read_eq (m : Machine)
    (hrcx : m.vm.guest_registers.rcx % 2 ^ 32 = IA32_LSTAR) :
    (handle_msr_access false m MsrAccessType.Read).1.vm.guest_registers.rax
      = m.vm.guest_registers.original_lstar &&& MSR_MASK_LOW
    ∧ (handle_msr_access false m MsrAccessType.Read).1.vm.guest_registers.rdx
      = m.vm.guest_registers.original_lstar >>> 32
    ∧ (handle_msr_access false m MsrAccessType.Read).2 = .ok ExitType.IncrementRIP := by
  simp only [handle_msr_access, hrcx]
  rw [if_neg (by simp), if_neg (fun hc => lstar_not_invalid hc.2)]
  simp

/-- Characterization of the write path for IA32_LSTAR when an original
value has already been captured: interception is unhooked and the kernel
base recorded in every case; the hardware register is written (with the
hook value when nonzero, the original otherwise) exactly when the
incoming value equals the captured original, and is untouched
otherwise. -/
theorem handle_lstar_write_captured (m : Machine)
    (hrcx : m.vm.guest_registers.rcx % 2 ^ 32 = IA32_LSTAR)
    (horig : m.vm.guest_registers.original_lstar ≠ 0) :
    handle_msr_access false m MsrAccessType.Write =
      (if guest_msr_value m.vm.guest_registers = m.vm.guest_registers.original_lstar then
        { m with
          vm := { m.vm with hook_manager := { m.vm.hook_manager with
            msr_bitmap_lstar_write := false,
            kernel_base := some (guest_msr_value m.vm.guest_registers) } },
          hwMsr := wrmsr IA32_LSTAR
            (if m.vm.guest_registers.hook_lstar ≠ 0 then m.vm.guest_registers.hook_lstar
             else m.vm.guest_registers.original_lstar) m.hwMsr }
      else
        { m with
          vm := { m.vm with hook_manager := { m.vm.hook_manager with
            msr_bitmap_lstar_write := false,
            kernel_base := some (guest_msr_value m.vm.guest_registers) } } },
      Except.ok ExitType.IncrementRIP) := by
  simp only [handle_msr_access, hrcx]
  rw [if_neg (by simp), if_neg (fun hc => lstar_not_invalid hc.2), if_pos trivial]
  split_ifs with h1 h2 h3 h4 <;> first | rfl | exact absurd h1 horig

/-- C5 amended: a guest read of IA32_LSTAR always returns the shadowed
original_lstar field of the guest register state; when one has been
captured that is the captured original, and when none has been captured
the guest reads the field's initial value 0, not the live hardware
register value. -/
theorem C5_lstar_read_returns_shadowed_field (m : Machine)
    (hrcx : m.vm.guest_registers.rcx % 2 ^ 32 = IA32_LSTAR) :
    (handle_msr_access false m MsrAccessType.Read).1.vm.guest_registers.rax
      = m.vm.guest_registers.original_lstar &&& MSR_MASK_LOW
    ∧ (handle_msr_access false m MsrAccessType.Read).1.vm.guest_registers.rdx
      = m.vm.guest_registers.original_lstar >>> 32
    ∧ (handle_msr_access false m MsrAccessType.Read).2 = .ok ExitType.IncrementRIP :=
  handle_lstar_read_eq m hrcx

/-- Witness for C5 amended, at the concrete uncaptured machine: the read
reports the shadow field 0. -/
theorem C5_lstar_read_returns_shadowed_field_witness :
    (handle_msr_access false m_lstar_uncaptured MsrAccessType.Read).1.vm.guest_registers.rax
      = m_lstar_uncaptured.vm.guest_registers.original_lstar &&& MSR_MASK_LOW
    ∧ (handle_msr_access false m_lstar_uncaptured MsrAccessType.Read).1.vm.guest_registers.rdx
      = m_lstar_uncaptured.vm.guest_registers.original_lstar >>> 32
    ∧ (handle_msr_access false m_lstar_uncaptured MsrAccessType.Read).2
      = .ok ExitType.IncrementRIP :=
  C5_lstar_read_returns_shadowed_field m_lstar_uncaptured rfl

/-- C3: when the guest writes IA32_LSTAR with exactly the previously
captured original value, the value committed to the hardware register is
the nonzero hook value rather than the written value, and a subsequent
guest read of IA32_LSTAR still reports the shadowed original value. -/
theorem C3_lstar_integrity_rewrite_commits_hook (m : Machine) (V H : Nat)
    (hrcx : m.vm.guest_registers.rcx % 2 ^ 32 = IA32_LSTAR)
    (horig : m.vm.guest_registers.original_lstar = V) (hV : V ≠ 0)
    (hhook : m.vm.guest_registers.hook_lstar = H) (hH : H ≠ 0)
    (hval : guest_msr_value m.vm.guest_registers = V) :
    (handle_msr_access false m MsrAccessType.Write).1.hwMsr IA32_LSTAR = H
    ∧ (handle_msr_access false (handle_msr_access false m MsrAccessType.Write).1
        MsrAccessType.Read).1.vm.guest_registers.rax = V &&& MSR_MASK_LOW
    ∧ (handle_msr_access false (handle_msr_access false m MsrAccessType.Write).1
        MsrAccessType.Read).1.vm.guest_registers.rdx = V >>> 32 := by
  have hcap : m.vm.guest_registers.original_lstar ≠ 0 := by rw [horig]; exact hV
  have hw := handle_lstar_write_captured m hrcx hcap
  rw [if_pos (by rw [hval, horig])] at hw
  refine ⟨?_, ?_, ?_⟩
  · rw [hw]
    simp only [wrmsr]
    rw [if_pos trivial, if_pos (fun h => hH (hhook.symm.trans h))]
    exact hhook
  · rw [hw]
    refine Eq.trans ((handle_lstar_read_eq _ ?_).1) ?_
    · exact hrcx
    · simp only [horig]
  · rw [hw]
    refine Eq.trans ((handle_lstar_read_eq _ ?_).2.1) ?_
    · exact hrcx
    · simp only [horig]

/-- Concrete machine for the C3 witness: the captured original is the
canonical kernel entry value, the hook value is a distinct marker, and
the guest rewrites exactly the original value. -/
def m_lstar_captured : Machine :=
  { m0 with vm := { vm0 with guest_registers :=
      { regs0 with
        rcx := IA32_LSTAR,
        rax := 0xFFFF800000001000 % 2 ^ 32,
        rdx := 0xFFFF800000001000 >>> 32,
        original_lstar := 0xFFFF800000001000,
        hook_lstar := 0xDEAD } } }

/-- Witness for C3 at the concrete captured machine: committing the
integrity rewrite leaves the hook value 0xDEAD in the hardware register
while the guest still reads back the original. -/
theorem C3_lstar_integrity_rewrite_commits_hook_witness :
    (handle_msr_access false m_lstar_captured MsrAccessType.Write).1.hwMsr IA32_LSTAR = 0xDEAD
    ∧ (handle_msr_access false
        (handle_msr_access false m_lstar_captured MsrAccessType.Write).1
        MsrAccessType.Read).1.vm.guest_registers.rax
      = 0xFFFF800000001000 &&& MSR_MASK_LOW
    ∧ (handle_msr_access false
        (handle_msr_access false m_lstar_captured MsrAccessType.Write).1
        MsrAccessType.Read).1.vm.guest_registers.rdx
      = 0xFFFF800000001000 >>> 32 :=
  C3_lstar_integrity_rewrite_commits_hook m_lstar_captured 0xFFFF800000001000 0xDEAD
    rfl rfl (by decide) rfl (by decide) (by decide)

/-- C10: a guest write to IA32_LSTAR whose value differs from the
previously captured original is never committed to the hardware register
file, which is left untouched, even though the handler still returns the
IncrementRIP disposition. -/
theorem C10_lstar_divergent_write_not_committed (m : Machine)
    (hrcx : m.vm.guest_registers.rcx % 2 ^ 32 = IA32_LSTAR)
    (horig : m.vm.guest_registers.original_lstar ≠ 0)
    (hneq : guest_msr_value m.vm.guest_registers ≠ m.vm.guest_registers.original_lstar) :
    (handle_msr_access false m MsrAccessType.Write).1.hwMsr = m.hwMsr
    ∧ (handle_msr_access false m MsrAccessType.Write).2 = .ok ExitType.IncrementRIP := by
  have hw := handle_lstar_write_captured m hrcx horig
  rw [if_neg hneq] at hw
  rw [hw]
  exact ⟨rfl, rfl⟩

/-- Concrete machine for the C10 witness: an original has been captured
and the guest writes the divergent value 0x42. -/
def m_lstar_divergent : Machine :=
  { m0 with vm := { vm0 with guest_registers :=
      { regs0 with
        rcx := IA32_LSTAR,
        rax := 0x42,
        rdx := 0,
        original_lstar := 0xFFFF800000001000,
        hook_lstar := 0xDEAD } } }

/-- Witness for C10 at the concrete divergent machine: the hardware MSR
file is untouched and the disposition still advances the instruction. -/
theorem C10_lstar_divergent_write_not_committed_witness :
    (handle_msr_access false m_lstar_divergent MsrAccessType.Write).1.hwMsr
      = m_lstar_divergent.hwMsr
    ∧ (handle_msr_access false m_lstar_divergent MsrAccessType.Write).2
      = .ok ExitType.IncrementRIP :=
  C10_lstar_divergent_write_not_committed m_lstar_divergent rfl (by decide) (by decide)

/-- Splitting a large EPT page does not change per-page permissions. -/
theorem split_2mb_to_4kb_permissions (ept : Ept) (l : Nat) :
    (ept.split_2mb_to_4kb l).permissions = ept.permissions := by
  unfold Ept.split_2mb_to_4kb
  split_ifs <;> rfl

/-- Characterization of a function-hook install on a page that is both
split and shadow-copied already: the existing page table and shadow page
are reused, only the detour is rewritten in the shadow page, the page
permission is set again and the hook index is incremented. -/
theorem ept_hook_function_already_hooked (pa_from_va : Nat → Nat) (m : Machine) (va : Nat)
    (t : InlineHookType) (sh pt : Nat)
    (hsh : m.vm.hook_manager.memory_manager.shadow_map.lookup
      (align_down_to_base_page (pa_from_va va)) = some sh)
    (hpt : m.vm.hook_manager.memory_manager.pt_map.lookup
      (align_down_to_base_page (pa_from_va va)) = some pt) :
    HookManager.ept_hook_function pa_from_va m va (EptHookType.Function t) =
      ({ m with
        vm := { m.vm with
          primary_ept := m.vm.primary_ept.modify_page_permissions
            (align_down_to_base_page (pa_from_va va)) AccessType.READ_WRITE,
          hook_manager := { m.vm.hook_manager with
            current_hook_index := m.vm.hook_manager.current_hook_index + 1 } },
        mem := InlineHook.detour64
          (calculate_function_offset_in_host_shadow_page sh (pa_from_va va)) m.mem,
        invept_all_contexts_done := true,
        invvpid_all_contexts_done := true }, .ok ()) := by
  simp only [HookManager.ept_hook_function, MemoryManager.is_page_split,
    MemoryManager.is_page_copied, MemoryManager.get_shadow_page,
    MemoryManager.get_page_table, Machine.with_memory_manager, Machine.with_primary_ept,
    Machine.with_mem, Machine.with_hook_index, hsh, hpt, Option.isSome_some, Bool.not_true]
  simp [hsh, hpt]

/-- Characterization of a function-hook install on a fresh page with
capacity available: the large page is split onto a new page table, the
page is copied onto a new shadow page, the detour is written into the
shadow page, the page permission is downgraded and the hook index is
incremented. -/
theorem ept_hook_function_fresh (pa_from_va : Nat → Nat) (m : Machine) (va : Nat)
    (t : InlineHookType)
    (hpt : m.vm.hook_manager.memory_manager.pt_map.lookup
      (align_down_to_base_page (pa_from_va va)) = none)
    (hsh : m.vm.hook_manager.memory_manager.shadow_map.lookup
      (align_down_to_base_page (pa_from_va va)) = none)
    (hc1 : m.vm.hook_manager.memory_manager.pt_map.length
      < m.vm.hook_manager.memory_manager.max_hooks)
    (hc2 : m.vm.hook_manager.memory_manager.shadow_map.length
      < m.vm.hook_manager.memory_manager.max_hooks) :
    HookManager.ept_hook_function pa_from_va m va (EptHookType.Function t) =
      ({ m with
        vm := { m.vm with
          primary_ept := (m.vm.primary_ept.split_2mb_to_4kb
              (align_down_to_large_page (pa_from_va va))).modify_page_permissions
            (align_down_to_base_page (pa_from_va va)) AccessType.READ_WRITE,
          hook_manager := { m.vm.hook_manager with
            memory_manager := { m.vm.hook_manager.memory_manager with
              pt_map := (align_down_to_base_page (pa_from_va va),
                m.vm.hook_manager.memory_manager.pt_slots
                  m.vm.hook_manager.memory_manager.pt_map.length)
                :: m.vm.hook_manager.memory_manager.pt_map,
              shadow_map := (align_down_to_base_page (pa_from_va va),
                m.vm.hook_manager.memory_manager.shadow_slots
                  m.vm.hook_manager.memory_manager.shadow_map.length)
                :: m.vm.hook_manager.memory_manager.shadow_map },
            current_hook_index := m.vm.hook_manager.current_hook_index + 1 } },
        mem := InlineHook.detour64
          (calculate_function_offset_in_host_shadow_page
            (m.vm.hook_manager.memory_manager.shadow_slots
              m.vm.hook_manager.memory_manager.shadow_map.length) (pa_from_va va))
          (copy_guest_to_shadow (align_down_to_base_page (pa_from_va va))
            (m.vm.hook_manager.memory_manager.shadow_slots
              m.vm.hook_manager.memory_manager.shadow_map.length) m.mem),
        invept_all_contexts_done := true,
        invvpid_all_contexts_done := true }, .ok ()) := by
  simp only [HookManager.ept_hook_function, MemoryManager.is_page_split,
    MemoryManager.is_page_copied, MemoryManager.get_or_create_page_table,
    MemoryManager.get_or_create_shadow_page, MemoryManager.get_shadow_page,
    MemoryManager.get_page_table, Machine.with_memory_manager, Machine.with_primary_ept,
    Machine.with_mem, Machine.with_hook_index, hpt, hsh, hc1, hc2,
    Option.isSome_none, Bool.not_false, if_true, List.lookup]
  simp [List.lookup]

/-- Characterization of a function-hook install on a page already split
but not yet shadow-copied, with shadow capacity available: the existing
page table is reused, a new shadow page is allocated and filled by the
page copy, then the detour, permission change and index increment
happen. -/
theorem ept_hook_function_split_only (pa_from_va : Nat → Nat) (m : Machine) (va : Nat)
    (t : InlineHookType) (pt : Nat)
    (hpt : m.vm.hook_manager.memory_manager.pt_map.lookup
      (align_down_to_base_page (pa_from_va va)) = some pt)
    (hsh : m.vm.hook_manager.memory_manager.shadow_map.lookup
      (align_down_to_base_page (pa_from_va va)) = none)
    (hc2 : m.vm.hook_manager.memory_manager.shadow_map.length
      < m.vm.hook_manager.memory_manager.max_hooks) :
    HookManager.ept_hook_function pa_from_va m va (EptHookType.Function t) =
      ({ m with
        vm := { m.vm with
          primary_ept := m.vm.primary_ept.modify_page_permissions
            (align_down_to_base_page (pa_from_va va)) AccessType.READ_WRITE,
          hook_manager := { m.vm.hook_manager with
            memory_manager := { m.vm.hook_manager.memory_manager with
              shadow_map := (align_down_to_base_page (pa_from_va va),
                m.vm.hook_manager.memory_manager.shadow_slots
                  m.vm.hook_manager.memory_manager.shadow_map.length)
                :: m.vm.hook_manager.memory_manager.shadow_map },
            current_hook_index := m.vm.hook_manager.current_hook_index + 1 } },
        mem := InlineHook.detour64
          (calculate_function_offset_in_host_shadow_page
            (m.vm.hook_manager.memory_manager.shadow_slots
              m.vm.hook_manager.memory_manager.shadow_map.length) (pa_from_va va))
          (copy_guest_to_shadow (align_down_to_base_page (pa_from_va va))
            (m.vm.hook_manager.memory_manager.shadow_slots
              m.vm.hook_manager.memory_manager.shadow_map.length) m.mem),
        invept_all_contexts_done := true,
        invvpid_all_contexts_done := true }, .ok ()) := by
  simp only [HookManager.ept_hook_function, MemoryManager.is_page_split,
    MemoryManager.is_page_copied, MemoryManager.get_or_create_shadow_page,
    MemoryManager.get_shadow_page, MemoryManager.get_page_table,
    Machine.with_memory_manager, Machine.with_primary_ept,
    Machine.with_mem, Machine.with_hook_index, hpt, hsh, hc2,
    Option.isSome_some, Bool.not_true]
  simp [hsh, hpt, hc2, List.lookup]

/-- Characterization of a function-hook install on a page already
shadow-copied but not yet split, with page-table capacity available: the
large page is split onto a new page table, the existing shadow page is
reused without a new copy, then the detour, permission change and index
increment happen. -/
theorem ept_hook_function_copy_only (pa_from_va : Nat → Nat) (m : Machine) (va : Nat)
    (t : InlineHookType) (sh : Nat)
    (hpt : m.vm.hook_manager.memory_manager.pt_map.lookup
      (align_down_to_base_page (pa_from_va va)) = none)
    (hsh : m.vm.hook_manager.memory_manager.shadow_map.lookup
      (align_down_to_base_page (pa_from_va va)) = some sh)
    (hc1 : m.vm.hook_manager.memory_manager.pt_map.length
      < m.vm.hook_manager.memory_manager.max_hooks) :
    HookManager.ept_hook_function pa_from_va m va (EptHookType.Function t) =
      ({ m with
        vm := { m.vm with
          primary_ept := (m.vm.primary_ept.split_2mb_to_4kb
              (align_down_to_large_page (pa_from_va va))).modify_page_permissions
            (align_down_to_base_page (pa_from_va va)) AccessType.READ_WRITE,
          hook_manager := { m.vm.hook_manager with
            memory_manager := { m.vm.hook_manager.memory_manager with
              pt_map := (align_down_to_base_page (pa_from_va va),
                m.vm.hook_manager.memory_manager.pt_slots
                  m.vm.hook_manager.memory_manager.pt_map.length)
                :: m.vm.hook_manager.memory_manager.pt_map },
            current_hook_index := m.vm.hook_manager.current_hook_index + 1 } },
        mem := InlineHook.detour64
          (calculate_function_offset_in_host_shadow_page sh (pa_from_va va)) m.mem,
        invept_all_contexts_done := true,
        invvpid_all_contexts_done := true }, .ok ()) := by
  simp only [HookManager.ept_hook_function, MemoryManager.is_page_split,
    MemoryManager.is_page_copied, MemoryManager.get_or_create_page_table,
    MemoryManager.get_shadow_page, MemoryManager.get_page_table,
    Machine.with_memory_manager, Machine.with_primary_ept,
    Machine.with_mem, Machine.with_hook_index, hpt, hsh, hc1,
    Option.isSome_none, Bool.not_false]
  simp [hsh, hpt, hc1, List.lookup]

/-- Characterization of a function-hook install on a fresh page when the
page-table capacity is exhausted: the install fails with the capacity
error before any state is mutated. -/
theorem ept_hook_function_capacity_error (pa_from_va : Nat → Nat) (m : Machine) (va : Nat)
    (k : EptHookType)
    (hpt : m.vm.hook_manager.memory_manager.pt_map.lookup
      (align_down_to_base_page (pa_from_va va)) = none)
    (hfull : m.vm.hook_manager.memory_manager.max_hooks ≤
      m.vm.hook_manager.memory_manager.pt_map.length) :
    HookManager.ept_hook_function pa_from_va m va k
      = (m, .error HypervisorError.CapacityExceeded) := by
  simp only [HookManager.ept_hook_function, MemoryManager.is_page_split,
    MemoryManager.get_or_create_page_table, hpt,
    Option.isSome_none, Bool.not_false]
  rw [if_neg (Nat.not_lt.mpr hfull)]
  simp

/-- Characterization of a function-hook install on a split page whose
shadow copy is missing when the shadow capacity is exhausted: the install
fails with the capacity error and the machine is unchanged. -/
theorem ept_hook_function_shadow_capacity_error (pa_from_va : Nat → Nat) (m : Machine)
    (va : Nat) (k : EptHookType) (pt : Nat)
    (hpt : m.vm.hook_manager.memory_manager.pt_map.lookup
      (align_down_to_base_page (pa_from_va va)) = some pt)
    (hsh : m.vm.hook_manager.memory_manager.shadow_map.lookup
      (align_down_to_base_page (pa_from_va va)) = none)
    (hfull : m.vm.hook_manager.memory_manager.max_hooks ≤
      m.vm.hook_manager.memory_manager.shadow_map.length) :
    HookManager.ept_hook_function pa_from_va m va k
      = (m, .error HypervisorError.CapacityExceeded) := by
  simp only [HookManager.ept_hook_function, MemoryManager.is_page_split,
    MemoryManager.is_page_copied, MemoryManager.get_or_create_shadow_page, hpt,
    Option.isSome_some, Bool.not_true]
  simp only [Bool.false_eq_true, if_false, hsh, Option.isSome_none, Bool.not_false]
  rw [if_neg (Nat.not_lt.mpr hfull)]
  simp

/-- The page copy modifies only bytes of the destination shadow page. -/
theorem copy_guest_to_shadow_frame (P sh : Nat) (mem : Nat → Nat) (a : Nat)
    (h : copy_guest_to_shadow P sh mem a ≠ mem a) :
    sh ≤ a ∧ a < sh + BASE_PAGE_SIZE := by
  by_cases hc : sh ≤ a ∧ a < sh + BASE_PAGE_SIZE
  · exact hc
  · exact absurd rfl (by unfold copy_guest_to_shadow at h; rw [if_neg hc] at h; exact h)

/-- The detour write modifies only its target byte. -/
theorem detour64_frame (target : Nat) (mem : Nat → Nat) (a : Nat)
    (h : InlineHook.detour64 target mem a ≠ mem a) : a = target := by
  by_cases hc : a = target
  · exact hc
  · exact absurd rfl (by unfold InlineHook.detour64 at h; rw [if_neg hc] at h; exact h)

/-- The permission recorded by modify_page_permissions is read back. -/
theorem get_permission_modify (ept : Ept) (P : Nat) (access : AccessType) :
    (ept.modify_page_permissions P access).get_permission P = access := by
  simp [Ept.modify_page_permissions, Ept.get_permission, List.lookup]

set_option maxRecDepth 8000 in
/-- Counterexample for C6: the hook index is incremented on every
successful install, including repeated installs on an already hooked
page, where no capacity check runs; 65 successful installs at the same
guest virtual address leave the index at 65, strictly above MAX_HOOKS,
and the 65th call still succeeds. -/
theorem C6_hook_index_exceeds_capacity_counterexample :
    (install_iter 65 m0).vm.hook_manager.current_hook_index = 65
    ∧ MAX_HOOKS < (install_iter 65 m0).vm.hook_manager.current_hook_index
    ∧ (HookManager.ept_hook_function (fun va => va) (install_iter 64 m0) 0x403123
        (EptHookType.Function InlineHookType.Jmp)).2 = .ok () := by
  have h1 : (install_iter 65 m0).vm.hook_manager.current_hook_index = 65 := by rfl
  refine ⟨h1, ?_, by rfl⟩
  rw [h1]
  decide

/-- C6 amended: the hook index is incremented once per successful install,
including repeat installs on an already hooked page, so it can exceed
MAX_HOOKS; what holds is that installing on a page that is not yet split
when the fixed-capacity table is full fails deterministically with the
capacity error and leaves the machine, in particular every installed
hook, unchanged - so at most MAX_HOOKS distinct pages are ever hooked,
and the 65th distinct page fails. -/
theorem C6_capacity_error_on_65th_distinct_page (pa_from_va : Nat → Nat) (m : Machine)
    (va : Nat) (k : EptHookType)
    (hsplit : m.vm.hook_manager.memory_manager.is_page_split
      (align_down_to_base_page (pa_from_va va)) = false)
    (hfull : m.vm.hook_manager.memory_manager.max_hooks ≤
      m.vm.hook_manager.memory_manager.pt_map.length) :
    HookManager.ept_hook_function pa_from_va m va k
      = (m, .error HypervisorError.CapacityExceeded) := by
  have hnone : m.vm.hook_manager.memory_manager.pt_map.lookup
      (align_down_to_base_page (pa_from_va va)) = none := by
    rcases h : m.vm.hook_manager.memory_manager.pt_map.lookup
      (align_down_to_base_page (pa_from_va va)) with _ | pt
    · rfl
    · rw [MemoryManager.is_page_split, h] at hsplit
      simp at hsplit
  exact ept_hook_function_capacity_error pa_from_va m va k hnone hfull

/-- Concrete memory manager with a full fixed-capacity table: 64 distinct
guest pages are mapped. -/
def mm_full : MemoryManager :=
  { mm0 with
    pt_map := (List.range MAX_HOOKS).map
      (fun i => (BASE_PAGE_SIZE * i, 0x1000000 + BASE_PAGE_SIZE * i)) }

/-- Concrete machine with 64 distinct pages hooked in the page-table map. -/
def m_full : Machine :=
  { m0 with vm := { vm0 with hook_manager := { hm0 with memory_manager := mm_full } } }

set_option maxRecDepth 8000 in
/-- Witness for C6 amended at the concrete full machine: installing on a
65th distinct page fails with the capacity error and no state change. -/
theorem C6_capacity_error_on_65th_distinct_page_witness :
    HookManager.ept_hook_function (fun va => va) m_full 0x2000000000
        (EptHookType.Function InlineHookType.Jmp)
      = (m_full, .error HypervisorError.CapacityExceeded) :=
  C6_capacity_error_on_65th_distinct_page (fun va => va) m_full 0x2000000000
    (EptHookType.Function InlineHookType.Jmp) (by decide) (by decide)

/-- On a fresh page with page-table capacity available but shadow
capacity exhausted the install fails with the capacity error. -/
theorem ept_hook_function_fresh_shadow_capacity_error (pa_from_va : Nat → Nat)
    (m : Machine) (va : Nat) (k : EptHookType)
    (hpt : m.vm.hook_manager.memory_manager.pt_map.lookup
      (align_down_to_base_page (pa_from_va va)) = none)
    (hc1 : m.vm.hook_manager.memory_manager.pt_map.length
      < m.vm.hook_manager.memory_manager.max_hooks)
    (hsh : m.vm.hook_manager.memory_manager.shadow_map.lookup
      (align_down_to_base_page (pa_from_va va)) = none)
    (hfull : m.vm.hook_manager.memory_manager.max_hooks ≤
      m.vm.hook_manager.memory_manager.shadow_map.length) :
    (HookManager.ept_hook_function pa_from_va m va k).2
      = .error HypervisorError.CapacityExceeded := by
  simp only [HookManager.ept_hook_function, MemoryManager.is_page_split,
    MemoryManager.get_or_create_page_table, Machine.with_memory_manager,
    Machine.with_primary_ept, hpt, hc1, Option.isSome_none, Bool.not_false]
  simp only [MemoryManager.is_page_copied, MemoryManager.get_or_create_shadow_page,
    hsh, Option.isSome_none, Bool.not_false, if_true]
  rw [if_neg (Nat.not_lt.mpr hfull)]

/-- A successful function-hook install leaves both the page table and the
shadow page present in the memory manager for the hooked page. -/
theorem ept_hook_function_ok_lookups (pa_from_va : Nat → Nat) (m : Machine) (va : Nat)
    (t : InlineHookType)
    (hok : (HookManager.ept_hook_function pa_from_va m va
      (EptHookType.Function t)).2 = .ok ()) :
    ∃ sh pt,
      (HookManager.ept_hook_function pa_from_va m va
        (EptHookType.Function t)).1.vm.hook_manager.memory_manager.shadow_map.lookup
          (align_down_to_base_page (pa_from_va va)) = some sh
      ∧ (HookManager.ept_hook_function pa_from_va m va
        (EptHookType.Function t)).1.vm.hook_manager.memory_manager.pt_map.lookup
          (align_down_to_base_page (pa_from_va va)) = some pt := by
  rcases hpt : m.vm.hook_manager.memory_manager.pt_map.lookup
      (align_down_to_base_page (pa_from_va va)) with _ | pt
  · rcases hsh : m.vm.hook_manager.memory_manager.shadow_map.lookup
        (align_down_to_base_page (pa_from_va va)) with _ | sh
    · by_cases hc1 : m.vm.hook_manager.memory_manager.pt_map.length
          < m.vm.hook_manager.memory_manager.max_hooks
      · by_cases hc2 : m.vm.hook_manager.memory_manager.shadow_map.length
            < m.vm.hook_manager.memory_manager.max_hooks
        · rw [ept_hook_function_fresh pa_from_va m va t hpt hsh hc1 hc2]
          refine ⟨m.vm.hook_manager.memory_manager.shadow_slots
              m.vm.hook_manager.memory_manager.shadow_map.length,
            m.vm.hook_manager.memory_manager.pt_slots
              m.vm.hook_manager.memory_manager.pt_map.length, ?_, ?_⟩ <;>
            simp [List.lookup]
        · rw [ept_hook_function_fresh_shadow_capacity_error pa_from_va m va
            (EptHookType.Function t) hpt hc1 hsh (Nat.not_lt.mp hc2)] at hok
          cases hok
      · rw [ept_hook_function_capacity_error pa_from_va m va
          (EptHookType.Function t) hpt (Nat.not_lt.mp hc1)] at hok
        cases hok
    · by_cases hc1 : m.vm.hook_manager.memory_manager.pt_map.length
          < m.vm.hook_manager.memory_manager.max_hooks
      · rw [ept_hook_function_copy_only pa_from_va m va t sh hpt hsh hc1]
        refine ⟨sh, m.vm.hook_manager.memory_manager.pt_slots
            m.vm.hook_manager.memory_manager.pt_map.length, ?_, ?_⟩
        · simp [hsh]
        · simp [List.lookup]
      · rw [ept_hook_function_capacity_error pa_from_va m va
          (EptHookType.Function t) hpt (Nat.not_lt.mp hc1)] at hok
        cases hok
  · rcases hsh : m.vm.hook_manager.memory_manager.shadow_map.lookup
        (align_down_to_base_page (pa_from_va va)) with _ | sh
    · by_cases hc2 : m.vm.hook_manager.memory_manager.shadow_map.length
          < m.vm.hook_manager.memory_manager.max_hooks
      · rw [ept_hook_function_split_only pa_from_va m va t pt hpt hsh hc2]
        refine ⟨m.vm.hook_manager.memory_manager.shadow_slots
            m.vm.hook_manager.memory_manager.shadow_map.length, pt, ?_, ?_⟩
        · simp [List.lookup]
        · simp [hpt]
      · rw [ept_hook_function_shadow_capacity_error pa_from_va m va
          (EptHookType.Function t) pt hpt hsh (Nat.not_lt.mp hc2)] at hok
        cases hok
    · rw [ept_hook_function_already_hooked pa_from_va m va t sh pt hsh hpt]
      exact ⟨sh, pt, by simp [hsh], by simp [hpt]⟩

/-- C2: hook installation is idempotent with respect to page splitting
and shadow copying: a successful install leaves the page split and
copied, and a repeat install for any address in the same page succeeds
while reusing the page-table and shadow-page allocations (both maps and
the set of split large pages are unchanged) and re-copying nothing - the
only memory it touches is the detour byte inside the existing shadow
page. -/
theorem C2_hook_install_idempotent (pa_from_va : Nat → Nat) (m : Machine) (va va' : Nat)
    (t t' : InlineHookType)
    (hok : (HookManager.ept_hook_function pa_from_va m va (EptHookType.Function t)).2
      = .ok ())
    (hsame : align_down_to_base_page (pa_from_va va')
      = align_down_to_base_page (pa_from_va va)) :
    (HookManager.ept_hook_function pa_from_va m va (EptHookType.Function t)).1.vm.hook_manager.memory_manager.is_page_split (align_down_to_base_page (pa_from_va va)) = true
    ∧ (HookManager.ept_hook_function pa_from_va m va (EptHookType.Function t)).1.vm.hook_manager.memory_manager.is_page_copied (align_down_to_base_page (pa_from_va va)) = true
    ∧ (HookManager.ept_hook_function pa_from_va
        (HookManager.ept_hook_function pa_from_va m va (EptHookType.Function t)).1 va'
        (EptHookType.Function t')).2 = .ok ()
    ∧ (HookManager.ept_hook_function pa_from_va
        (HookManager.ept_hook_function pa_from_va m va (EptHookType.Function t)).1 va'
        (EptHookType.Function t')).1.vm.hook_manager.memory_manager.pt_map
      = (HookManager.ept_hook_function pa_from_va m va (EptHookType.Function t)).1.vm.hook_manager.memory_manager.pt_map
    ∧ (HookManager.ept_hook_function pa_from_va
        (HookManager.ept_hook_function pa_from_va m va (EptHookType.Function t)).1 va'
        (EptHookType.Function t')).1.vm.hook_manager.memory_manager.shadow_map
      = (HookManager.ept_hook_function pa_from_va m va (EptHookType.Function t)).1.vm.hook_manager.memory_manager.shadow_map
    ∧ (HookManager.ept_hook_function pa_from_va
        (HookManager.ept_hook_function pa_from_va m va (EptHookType.Function t)).1 va'
        (EptHookType.Function t')).1.vm.primary_ept.split_large_pages
      = (HookManager.ept_hook_function pa_from_va m va (EptHookType.Function t)).1.vm.primary_ept.split_large_pages
    ∧ ∀ a, (HookManager.ept_hook_function pa_from_va
        (HookManager.ept_hook_function pa_from_va m va (EptHookType.Function t)).1 va'
        (EptHookType.Function t')).1.mem a
        ≠ (HookManager.ept_hook_function pa_from_va m va (EptHookType.Function t)).1.mem a →
      a = ((HookManager.ept_hook_function pa_from_va m va (EptHookType.Function t)).1.vm.hook_manager.memory_manager.get_shadow_page (align_down_to_base_page (pa_from_va va))).getD 0
        + pa_from_va va' % BASE_PAGE_SIZE := by
  obtain ⟨sh, pt, hsh1, hpt1⟩ := ept_hook_function_ok_lookups pa_from_va m va t hok
  have hsh1' : (HookManager.ept_hook_function pa_from_va m va
      (EptHookType.Function t)).1.vm.hook_manager.memory_manager.shadow_map.lookup
        (align_down_to_base_page (pa_from_va va')) = some sh := by
    rw [hsame]; exact hsh1
  have hpt1' : (HookManager.ept_hook_function pa_from_va m va
      (EptHookType.Function t)).1.vm.hook_manager.memory_manager.pt_map.lookup
        (align_down_to_base_page (pa_from_va va')) = some pt := by
    rw [hsame]; exact hpt1
  have hB := ept_hook_function_already_hooked pa_from_va
    (HookManager.ept_hook_function pa_from_va m va (EptHookType.Function t)).1 va' t'
    sh pt hsh1' hpt1'
  rw [hB]
  refine ⟨?_, ?_, rfl, rfl, rfl, rfl, ?_⟩
  · simp [MemoryManager.is_page_split, hpt1]
  · simp [MemoryManager.is_page_copied, hsh1]
  · intro a hne
    have ha := detour64_frame _ _ _ hne
    rw [ha]
    simp [MemoryManager.get_shadow_page, hsh1,
      calculate_function_offset_in_host_shadow_page]

/-- A successful association-list lookup yields a member of the list. -/
theorem lookup_mem {l : List (Nat × Nat)} {k b : Nat} (h : l.lookup k = some b) :
    (k, b) ∈ l := by
  obtain ⟨l₁, l₂, rfl, -⟩ := List.lookup_eq_some_iff.mp h
  simp

/-- Frame facts about installing the detour at the in-page offset of a
function inside a shadow page that is disjoint from the guest page: the
marker lands at the computed offset, every byte that changed relative to
the pre-install memory lies inside the shadow page, and the guest page
itself is untouched. -/
theorem hook_mem_frame (P sh pa : Nat) (mem0 mem1 : Nat → Nat)
    (hdisj : page_disjoint sh P)
    (hbase : ∀ a, mem1 a ≠ mem0 a → sh ≤ a ∧ a < sh + BASE_PAGE_SIZE) :
    InlineHook.detour64 (sh + pa % BASE_PAGE_SIZE) mem1 (sh + pa % BASE_PAGE_SIZE)
      = detour_marker
    ∧ (∀ a, InlineHook.detour64 (sh + pa % BASE_PAGE_SIZE) mem1 a ≠ mem0 a →
        sh ≤ a ∧ a < sh + BASE_PAGE_SIZE)
    ∧ (∀ a, P ≤ a → a < P + BASE_PAGE_SIZE →
        InlineHook.detour64 (sh + pa % BASE_PAGE_SIZE) mem1 a = mem0 a) := by
  have hofflt : pa % BASE_PAGE_SIZE < BASE_PAGE_SIZE :=
    Nat.mod_lt pa (by decide)
  refine ⟨by simp [InlineHook.detour64], ?_, ?_⟩
  · intro a hne
    by_cases ha : a = sh + pa % BASE_PAGE_SIZE
    · subst ha; omega
    · refine hbase a ?_
      unfold InlineHook.detour64 at hne
      rw [if_neg ha] at hne
      exact hne
  · intro a h1 h2
    have hne_t : a ≠ sh + pa % BASE_PAGE_SIZE := by
      rcases hdisj with h | h <;> omega
    unfold InlineHook.detour64
    rw [if_neg hne_t]
    by_contra hne
    have hb := hbase a hne
    rcases hdisj with h | h <;> omega

/-- C1: a function-hook install writes the detour only inside the shadow
page, at the shadow page base plus the in-page offset of the guest
function; the guest's original physical page contents are never
modified, and the EPT permission of the original guest page is changed
to read-write only. The hypotheses say the shadow pool pages and any
previously allocated shadow page are host pages disjoint from the guest
page, as they are in the running system. -/
theorem C1_function_hook_frame (pa_from_va : Nat → Nat) (m : Machine) (va : Nat)
    (t : InlineHookType)
    (hdisj_slots : ∀ i, i < m.vm.hook_manager.memory_manager.max_hooks →
      page_disjoint (m.vm.hook_manager.memory_manager.shadow_slots i)
        (align_down_to_base_page (pa_from_va va)))
    (hdisj_map : ∀ p ∈ m.vm.hook_manager.memory_manager.shadow_map,
      page_disjoint p.2 (align_down_to_base_page (pa_from_va va)))
    (hok : (HookManager.ept_hook_function pa_from_va m va
      (EptHookType.Function t)).2 = .ok ()) :
    ∃ sh,
      (HookManager.ept_hook_function pa_from_va m va (EptHookType.Function t)).1.vm.hook_manager.memory_manager.get_shadow_page (align_down_to_base_page (pa_from_va va)) = some sh
      ∧ (HookManager.ept_hook_function pa_from_va m va (EptHookType.Function t)).1.mem (sh + pa_from_va va % BASE_PAGE_SIZE) = detour_marker
      ∧ (∀ a, (HookManager.ept_hook_function pa_from_va m va (EptHookType.Function t)).1.mem a ≠ m.mem a → sh ≤ a ∧ a < sh + BASE_PAGE_SIZE)
      ∧ (∀ a, align_down_to_base_page (pa_from_va va) ≤ a →
          a < align_down_to_base_page (pa_from_va va) + BASE_PAGE_SIZE →
          (HookManager.ept_hook_function pa_from_va m va (EptHookType.Function t)).1.mem a = m.mem a)
      ∧ (HookManager.ept_hook_function pa_from_va m va (EptHookType.Function t)).1.vm.primary_ept.get_permission (align_down_to_base_page (pa_from_va va)) = AccessType.READ_WRITE := by
  rcases hpt : m.vm.hook_manager.memory_manager.pt_map.lookup
      (align_down_to_base_page (pa_from_va va)) with _ | pt
  · rcases hsh : m.vm.hook_manager.memory_manager.shadow_map.lookup
        (align_down_to_base_page (pa_from_va va)) with _ | sh
    · by_cases hc1 : m.vm.hook_manager.memory_manager.pt_map.length
          < m.vm.hook_manager.memory_manager.max_hooks
      · by_cases hc2 : m.vm.hook_manager.memory_manager.shadow_map.length
            < m.vm.hook_manager.memory_manager.max_hooks
        · rw [ept_hook_function_fresh pa_from_va m va t hpt hsh hc1 hc2]
          obtain ⟨hm1, hm2, hm3⟩ := hook_mem_frame
            (align_down_to_base_page (pa_from_va va))
            (m.vm.hook_manager.memory_manager.shadow_slots
              m.vm.hook_manager.memory_manager.shadow_map.length)
            (pa_from_va va)
            m.mem
            (copy_guest_to_shadow (align_down_to_base_page (pa_from_va va))
              (m.vm.hook_manager.memory_manager.shadow_slots
                m.vm.hook_manager.memory_manager.shadow_map.length) m.mem)
            (hdisj_slots _ hc2)
            (fun a h => copy_guest_to_shadow_frame _ _ _ a h)
          refine ⟨m.vm.hook_manager.memory_manager.shadow_slots
              m.vm.hook_manager.memory_manager.shadow_map.length, ?_, ?_, ?_, ?_, ?_⟩
          · simp [MemoryManager.get_shadow_page, List.lookup]
          · simpa [calculate_function_offset_in_host_shadow_page] using hm1
          · simpa [calculate_function_offset_in_host_shadow_page] using hm2
          · simpa [calculate_function_offset_in_host_shadow_page] using hm3
          · exact get_permission_modify _ _ _
        · rw [ept_hook_function_fresh_shadow_capacity_error pa_from_va m va
            (EptHookType.Function t) hpt hc1 hsh (Nat.not_lt.mp hc2)] at hok
          cases hok
      · rw [ept_hook_function_capacity_error pa_from_va m va
          (EptHookType.Function t) hpt (Nat.not_lt.mp hc1)] at hok
        cases hok
    · by_cases hc1 : m.vm.hook_manager.memory_manager.pt_map.length
          < m.vm.hook_manager.memory_manager.max_hooks
      · rw [ept_hook_function_copy_only pa_from_va m va t sh hpt hsh hc1]
        obtain ⟨hm1, hm2, hm3⟩ := hook_mem_frame
          (align_down_to_base_page (pa_from_va va)) sh (pa_from_va va) m.mem m.mem
          (hdisj_map _ (lookup_mem hsh))
          (fun a h => absurd rfl h)
        refine ⟨sh, ?_, ?_, ?_, ?_, ?_⟩
        · simp [MemoryManager.get_shadow_page, hsh]
        · simpa [calculate_function_offset_in_host_shadow_page] using hm1
        · simpa [calculate_function_offset_in_host_shadow_page] using hm2
        · simpa [calculate_function_offset_in_host_shadow_page] using hm3
        · exact get_permission_modify _ _ _
      · rw [ept_hook_function_capacity_error pa_from_va m va
          (EptHookType.Function t) hpt (Nat.not_lt.mp hc1)] at hok
        cases hok
  · rcases hsh : m.vm.hook_manager.memory_manager.shadow_map.lookup
        (align_down_to_base_page (pa_from_va va)) with _ | sh
    · by_cases hc2 : m.vm.hook_manager.memory_manager.shadow_map.length
          < m.vm.hook_manager.memory_manager.max_hooks
      · rw [ept_hook_function_split_only pa_from_va m va t pt hpt hsh hc2]
        obtain ⟨hm1, hm2, hm3⟩ := hook_mem_frame
          (align_down_to_base_page (pa_from_va va))
          (m.vm.hook_manager.memory_manager.shadow_slots
            m.vm.hook_manager.memory_manager.shadow_map.length)
          (pa_from_va va)
          m.mem
          (copy_guest_to_shadow (align_down_to_base_page (pa_from_va va))
            (m.vm.hook_manager.memory_manager.shadow_slots
              m.vm.hook_manager.memory_manager.shadow_map.length) m.mem)
          (hdisj_slots _ hc2)
          (fun a h => copy_guest_to_shadow_frame _ _ _ a h)
        refine ⟨m.vm.hook_manager.memory_manager.shadow_slots
            m.vm.hook_manager.memory_manager.shadow_map.length, ?_, ?_, ?_, ?_, ?_⟩
        · simp [MemoryManager.get_shadow_page, List.lookup]
        · simpa [calculate_function_offset_in_host_shadow_page] using hm1
        · simpa [calculate_function_offset_in_host_shadow_page] using hm2
        · simpa [calculate_function_offset_in_host_shadow_page] using hm3
        · exact get_permission_modify _ _ _
      · rw [ept_hook_function_shadow_capacity_error pa_from_va m va
          (EptHookType.Function t) pt hpt hsh (Nat.not_lt.mp hc2)] at hok
        cases hok
    · rw [ept_hook_function_already_hooked pa_from_va m va t sh pt hsh hpt]
      obtain ⟨hm1, hm2, hm3⟩ := hook_mem_frame
        (align_down_to_base_page (pa_from_va va)) sh (pa_from_va va) m.mem m.mem
        (hdisj_map _ (lookup_mem hsh))
        (fun a h => absurd rfl h)
      refine ⟨sh, ?_, ?_, ?_, ?_, ?_⟩
      · simp [MemoryManager.get_shadow_page, hsh]
      · simpa [calculate_function_offset_in_host_shadow_page] using hm1
      · simpa [calculate_function_offset_in_host_shadow_page] using hm2
      · simpa [calculate_function_offset_in_host_shadow_page] using hm3
      · exact get_permission_modify _ _ _

/-- Witness for C1 at a concrete fresh machine: hooking the function at
0x403123 under the identity translation succeeds, the detour marker sits
at the shadow offset 0x123, all changes stay inside the shadow page, the
guest page bytes are untouched and its permission is read-write only. -/
theorem C1_function_hook_frame_witness :
    ∃ sh,
      (HookManager.ept_hook_function (fun va => va) m0 0x403123 (EptHookType.Function InlineHookType.Jmp)).1.vm.hook_manager.memory_manager.get_shadow_page (align_down_to_base_page 0x403123) = some sh
      ∧ (HookManager.ept_hook_function (fun va => va) m0 0x403123 (EptHookType.Function InlineHookType.Jmp)).1.mem (sh + 0x403123 % BASE_PAGE_SIZE) = detour_marker
      ∧ (∀ a, (HookManager.ept_hook_function (fun va => va) m0 0x403123 (EptHookType.Function InlineHookType.Jmp)).1.mem a ≠ m0.mem a → sh ≤ a ∧ a < sh + BASE_PAGE_SIZE)
      ∧ (∀ a, align_down_to_base_page 0x403123 ≤ a → a < align_down_to_base_page 0x403123 + BASE_PAGE_SIZE → (HookManager.ept_hook_function (fun va => va) m0 0x403123 (EptHookType.Function InlineHookType.Jmp)).1.mem a = m0.mem a)
      ∧ (HookManager.ept_hook_function (fun va => va) m0 0x403123 (EptHookType.Function InlineHookType.Jmp)).1.vm.primary_ept.get_permission (align_down_to_base_page 0x403123) = AccessType.READ_WRITE :=
  C1_function_hook_frame (fun va => va) m0 0x403123 InlineHookType.Jmp
    (by decide) (by decide) (by rfl)

/-- Result of the concrete first install, used by the C2 witness. -/
def m_hooked : Machine :=
  (HookManager.ept_hook_function (fun va => va) m0 0x403123
    (EptHookType.Function InlineHookType.Jmp)).1

/-- Witness for C2 at the concrete machine: after the first install at
0x403123 the page is split, and a repeat install at 0x403456 inside the
same page succeeds without touching the page-table or shadow maps. -/
theorem C2_hook_install_idempotent_witness :
    (HookManager.ept_hook_function (fun va => va) m0 0x403123
      (EptHookType.Function InlineHookType.Jmp)).2 = .ok ()
    ∧ align_down_to_base_page 0x403456 = align_down_to_base_page 0x403123
    ∧ m_hooked.vm.hook_manager.memory_manager.is_page_split
        (align_down_to_base_page 0x403123) = true
    ∧ (HookManager.ept_hook_function (fun va => va) m_hooked 0x403456
        (EptHookType.Function InlineHookType.Breakpoint)).2 = .ok ()
    ∧ (HookManager.ept_hook_function (fun va => va) m_hooked 0x403456
        (EptHookType.Function InlineHookType.Breakpoint)).1.vm.hook_manager.memory_manager.pt_map
      = m_hooked.vm.hook_manager.memory_manager.pt_map
    ∧ (HookManager.ept_hook_function (fun va => va) m_hooked 0x403456
        (EptHookType.Function InlineHookType.Breakpoint)).1.vm.hook_manager.memory_manager.shadow_map
      = m_hooked.vm.hook_manager.memory_manager.shadow_map := by
  have h := C2_hook_install_idempotent (fun va => va) m0 0x403123 0x403456
    InlineHookType.Jmp InlineHookType.Breakpoint (by rfl) (by rfl)
  exact ⟨by rfl, by rfl, h.1, h.2.2.1, h.2.2.2.1, h.2.2.2.2.1⟩

end Illusion
